import Mathlib

/-!
Verification of the decision layer of the databricks chatbot repository:
the query router (`utils/query_router.py`) and the Genie MCP client
(`utils/genie_client.py`).

Modelling conventions:
* Python strings are `String` / `List Char`; the regular-expression patterns of
  the router are translated pattern-by-pattern into executable matchers over
  the lowercased, trimmed query (word boundaries `\b` use the ASCII word-class
  `[A-Za-z0-9_]`, the fragment `.*` matches any characters except newline, and
  `re.search` existence is an existential over match positions).
* Python floats are modelled by `ℚ`; every constant appearing in the code
  (0.5, 0.1, 0.05, 0.85, 0.95) and every comparison performed on the
  confidences is exact at these magnitudes, so no stated property depends on
  binary-float rounding.
* The network, the token issuer and the remote Genie service are an oracle
  assigning an outcome to every outbound HTTP call; JSON bodies are an
  inductive `JVal`; fallible Python operations run in `Except PyExc`.
-/

/-! ### Word-boundary pattern matching (embedding of the compiled regexes) -/

/-- ASCII word character, the `\w` class used by the `\b` boundaries. -/
def isWordChar (c : Char) : Bool := c.isAlphanum || c == '_'

/-- Is position `i` of `cs` occupied by a word character? (out of range: no) -/
def wcAt (cs : List Char) (i : Nat) : Bool :=
  match cs.get? i with
  | some c => isWordChar c
  | none => false

/-- Regex word boundary `\b` at position `i` (between `cs[i-1]` and `cs[i]`). -/
def boundaryAt (cs : List Char) (i : Nat) : Bool :=
  match i with
  | 0 => wcAt cs 0
  | j+1 => wcAt cs j != wcAt cs (j+1)

/-- Literal `pat` occurs in `cs` starting at index `i`. -/
def litAt (cs pat : List Char) (i : Nat) : Bool :=
  pat.isPrefixOf (cs.drop i)

/-- Occurrence at `i` with a left word boundary (`\bpat`). -/
def occLB (cs pat : List Char) (i : Nat) : Bool :=
  boundaryAt cs i && litAt cs pat i

/-- Occurrence at `i` with word boundaries on both sides (`\bpat\b`). -/
def occWB (cs pat : List Char) (i : Nat) : Bool :=
  occLB cs pat i && boundaryAt cs (i + pat.length)

/-- `∃ i ≤ n, f i`, as a Bool. -/
def anyIdx (n : Nat) (f : Nat → Bool) : Bool :=
  (List.range (n+1)).any f

/-- The slice `cs[a..b)` contains no newline (the gap spanned by `.*`,
which does not match `\n` without `re.DOTALL`). -/
def noNL (cs : List Char) (a b : Nat) : Bool :=
  ((cs.drop a).take (b - a)).all (fun c => c != '\n')

/-- Shapes of the regular expressions appearing in `DATA_QUERY_PATTERNS` and
`GENERAL_QUERY_INDICATORS`; alternation and the optional `[s]?` suffix are
expanded into explicit alternative literals.
* `word alts`  — `\b(a₁|…|aₖ)\b`
* `seqLB hs as` — `\b(h…)\b.*\b(a₁|…|aₖ)` (alternatives left-bounded only)
* `seqWB hs as` — `\b(h…)\b.*\b(a₁|…|aₖ)\b` (alternatives bounded both sides)
* `gapOpt a b` — `\ba.?b\b` (one optional non-newline character between). -/
inductive RPat where
  | word (alts : List String)
  | seqLB (heads : List String) (alts : List String)
  | seqWB (heads : List String) (alts : List String)
  | gapOpt (a b : String)

/-- `re.search` of the pattern over `cs`: does the pattern match anywhere? -/
def RPat.mmatch (p : RPat) (cs : List Char) : Bool :=
  match p with
  | .word alts =>
      anyIdx cs.length (fun i => alts.any (fun a => occWB cs a.data i))
  | .seqLB heads alts =>
      anyIdx cs.length (fun i => heads.any (fun h =>
        occWB cs h.data i &&
        anyIdx cs.length (fun j =>
          decide (i + h.data.length ≤ j) && noNL cs (i + h.data.length) j &&
          alts.any (fun a => occLB cs a.data j))))
  | .seqWB heads alts =>
      anyIdx cs.length (fun i => heads.any (fun h =>
        occWB cs h.data i &&
        anyIdx cs.length (fun j =>
          decide (i + h.data.length ≤ j) && noNL cs (i + h.data.length) j &&
          alts.any (fun a => occWB cs a.data j))))
  | .gapOpt a b =>
      anyIdx cs.length (fun i =>
        occLB cs a.data i &&
        ((litAt cs b.data (i + a.data.length) &&
            boundaryAt cs (i + a.data.length + b.data.length)) ||
         (match cs.get? (i + a.data.length) with
          | some c => c != '\n'
          | none => false) &&
           litAt cs b.data (i + a.data.length + 1) &&
           boundaryAt cs (i + a.data.length + 1 + b.data.length)))

/-- The 46 data-intent regexes of `utils/query_router.py`, lines 15–62,
translated in order. -/
def DATA_QUERY_PATTERNS : List RPat := [
  .word ["how many"],
  .seqLB ["show me"] ["data", "record", "client", "metric", "table", "result"],
  .word ["what data"],
  .word ["query"],
  .word ["table", "tables"],
  .word ["client", "clients"],
  .word ["metric", "metrics"],
  .seqLB ["count"] ["record", "client", "row", "entry", "item"],
  .seqLB ["list"] ["all", "client", "record", "data", "table"],
  .seqLB ["find"] ["record", "client", "data", "entry"],
  .seqLB ["search"] ["database", "record", "client", "data"],
  .word ["database"],
  .word ["record", "records"],
  .word ["housing risk"],
  .word ["disability"],
  .word ["mental health"],
  .word ["demographic", "demographics"],
  .word ["measureresponse", "measureresponses"],
  .word ["outcome", "outcomes"],
  .word ["program evaluation"],
  .seqLB ["average"] ["score", "value", "count", "number"],
  .seqLB ["total"] ["count", "number", "client", "record"],
  .word ["sum"],
  .word ["percentage"],
  .word ["distribution"],
  .word ["breakdown"],
  .seqLB ["analyze"] ["data", "record", "client"],
  .seqLB ["analysis"] ["data", "record", "client"],
  .word ["statistic", "statistics"],
  .seqLB ["trend", "trends"] ["data", "client", "record"],
  .seqLB ["compare"] ["data", "client", "record", "metric"],
  .seqLB ["comparison"] ["data", "client", "record"],
  .seqLB ["filter"] ["data", "record", "client", "by"],
  .word ["group by"],
  .seqLB ["sort"] ["by", "data", "record"],
  .word ["order by"],
  .seqLB ["select"] ["from", "data", "record"],
  .seqLB ["where"] ["=", ">", "<", "is", "are"],
  .seqWB ["from"] ["table"],
  .gapOpt "ai" "final",
  .word ["cleaned"],
  .word ["longitudinal"],
  .gapOpt "single" "record",
  .word ["support need", "support needs"],
  .word ["risk level", "risk levels"],
  .word ["assessment", "assessments"]
]

/-- The 27 general-intent regexes of `utils/query_router.py`, lines 64–92,
translated in order. -/
def GENERAL_QUERY_INDICATORS : List RPat := [
  .word ["explain"],
  .seqWB ["what is"] ["machine learning", "ai", "artificial intelligence",
                      "programming", "coding", "concept"],
  .seqWB ["how does"] ["work"],
  .seqWB ["write"] ["code", "script", "program", "story", "poem", "essay"],
  .seqWB ["create"] ["story", "poem", "essay", "content"],
  .word ["tell me about"],
  .word ["define"],
  .seqWB ["describe"] ["concept", "how", "what"],
  .word ["help me understand"],
  .word ["what are the benefits"],
  .word ["what are the advantages"],
  .word ["what are the disadvantages"],
  .word ["pros and cons"],
  .word ["opinion"],
  .word ["think about"],
  .word ["suggestion", "suggestions"],
  .word ["recommend"],
  .word ["advice"],
  .word ["tips"],
  .word ["best practice", "best practices"],
  .seqWB ["how to"] ["learn", "improve", "start", "begin"],
  .word ["tutorial"],
  .word ["guide"],
  .word ["benefits of"],
  .word ["advantages of"],
  .word ["disadvantages of"],
  .seqWB ["using"] ["ai", "machine learning", "python", "programming"]
]

/-! ### The classifier (`QueryRouter.classify_query`) -/

/-- ASCII lowercase of a string, the effect of Python `str.lower` on the
ASCII queries considered. -/
def lowerChars (cs : List Char) : List Char := cs.map Char.toLower

/-- Python `str.strip`: remove leading and trailing whitespace. -/
def trimWs (cs : List Char) : List Char :=
  ((cs.dropWhile Char.isWhitespace).reverse.dropWhile Char.isWhitespace).reverse

/-- `query.lower().strip()` of `classify_query`, line 113. -/
def normalizeQuery (q : String) : List Char := trimWs (lowerChars q.data)

/-- `data_matches`: how many data patterns match (each contributes ≤ 1). -/
def dataMatchCount (cs : List Char) : Nat :=
  DATA_QUERY_PATTERNS.countP (fun p => p.mmatch cs)

/-- `general_matches`: how many general patterns match. -/
def generalMatchCount (cs : List Char) : Nat :=
  GENERAL_QUERY_INDICATORS.countP (fun p => p.mmatch cs)

/-- `QueryType` enum of `utils/query_router.py`. -/
inductive QueryType where
  | DATA
  | GENERAL
deriving DecidableEq

/-- The branch cascade of `classify_query` (lines 124–140) as a function of
the two match counts.  The unused locals `data_score` / `general_score`
(lines 118–122) are dead code and omitted. -/
def classifyCounts (data_matches general_matches : Nat) : QueryType × ℚ :=
  if 0 < data_matches ∧ general_matches = 0 then
    (QueryType.DATA, min (0.5 + (data_matches : ℚ) * 0.1) 0.95)
  else if 0 < general_matches ∧ data_matches = 0 then
    (QueryType.GENERAL, min (0.5 + (general_matches : ℚ) * 0.1) 0.95)
  else if general_matches < data_matches then
    (QueryType.DATA, min (0.5 + ((data_matches : ℚ) - (general_matches : ℚ)) * 0.05) 0.85)
  else if data_matches < general_matches then
    (QueryType.GENERAL, min (0.5 + ((general_matches : ℚ) - (data_matches : ℚ)) * 0.05) 0.85)
  else
    (QueryType.GENERAL, 0.5)

/-- `QueryRouter.classify_query`, lines 102–140. -/
def classify_query (query : String) : QueryType × ℚ :=
  let query_lower := normalizeQuery query
  classifyCounts (dataMatchCount query_lower) (generalMatchCount query_lower)

/-- `QueryRouter.should_route_to_genie`, lines 142–156. -/
def should_route_to_genie (query : String) : Bool :=
  let r := classify_query query
  decide (r.1 = QueryType.DATA) && decide ((0.5 : ℚ) ≤ r.2)

/-! ### Spec-side restatement of the classification cascade (claim C1) -/

/-- The tie-break rules exactly as the specification words them, first
matching rule wins. -/
def classifySpecCascade (dataMatches generalMatches : Nat) : QueryType × ℚ :=
  if 0 < dataMatches ∧ generalMatches = 0 then
    (QueryType.DATA, min (0.5 + 0.1 * (dataMatches : ℚ)) 0.95)
  else if 0 < generalMatches ∧ dataMatches = 0 then
    (QueryType.GENERAL, min (0.5 + 0.1 * (generalMatches : ℚ)) 0.95)
  else if generalMatches < dataMatches then
    (QueryType.DATA, min (0.5 + 0.05 * ((dataMatches : ℚ) - (generalMatches : ℚ))) 0.85)
  else if dataMatches < generalMatches then
    (QueryType.GENERAL, min (0.5 + 0.05 * ((generalMatches : ℚ) - (dataMatches : ℚ))) 0.85)
  else
    (QueryType.GENERAL, 0.5)

/-- Signed margin between the two match counts of a query. -/
def signedMargin (q : String) : ℤ :=
  (dataMatchCount (normalizeQuery q) : ℤ) - (generalMatchCount (normalizeQuery q) : ℤ)

/-- Which of the five cascade branches the counts select (0–4, in source
order). -/
def branchIdx (d g : Nat) : Nat :=
  if 0 < d ∧ g = 0 then 0
  else if 0 < g ∧ d = 0 then 1
  else if g < d then 2
  else if d < g then 3
  else 4

/-- `|d - g|` on naturals. -/
def absMargin (d g : Nat) : Nat := (d - g) + (g - d)

/-- Confidence as a function of the branch index and the absolute margin. -/
def confOfBranch (b m : Nat) : ℚ :=
  if b = 0 ∨ b = 1 then min (0.5 + (m : ℚ) * 0.1) 0.95
  else if b = 2 ∨ b = 3 then min (0.5 + (m : ℚ) * 0.05) 0.85
  else 0.5


/-! ### JSON values and a model of `json.loads` (`utils/genie_client.py`) -/

/-- Decoded JSON values, the results of Python `json.loads`. -/
inductive JVal where
  | jnull
  | jbool (b : Bool)
  | jnum (q : ℚ)
  | jstr (s : String)
  | jarr (elems : List JVal)
  | jobj (fields : List (String × JVal))

/-- Dict lookup (Python dicts produced by `json.loads` have unique keys,
maintained by `objInsert` below). -/
def objLookup : List (String × JVal) → String → Option JVal
  | [], _ => none
  | (k, v) :: rest, key => if k = key then some v else objLookup rest key

/-- Dict assignment: overwrite in place if the key exists (keeping its
position, as Python dicts do), else append. -/
def objInsert (fs : List (String × JVal)) (k : String) (v : JVal) :
    List (String × JVal) :=
  if fs.any (fun p => p.1 == k) then
    fs.map (fun p => if p.1 == k then (k, v) else p)
  else fs ++ [(k, v)]

/-- The characters `{` and `}` (written by code point to keep them out of
string literals). -/
def lbrace : Char := Char.ofNat 123

def rbrace : Char := Char.ofNat 125

/-- JSON whitespace skipped by the decoder: space, tab, newline, return. -/
def skipWs : List Char → List Char
  | c :: cs =>
      if c = ' ' ∨ c = '\t' ∨ c = '\n' ∨ c = '\r' then skipWs cs else c :: cs
  | [] => []

def hexVal (c : Char) : Option Nat :=
  if c.isDigit then some (c.toNat - 48)
  else if 97 ≤ c.toNat ∧ c.toNat ≤ 102 then some (c.toNat - 87)
  else if 65 ≤ c.toNat ∧ c.toNat ≤ 70 then some (c.toNat - 55)
  else none

/-- Body of a JSON string after the opening quote: returns the decoded
characters and the input after the closing quote.  Handles the JSON escapes
and rejects raw control characters, as the strict Python decoder does. -/
def parseStrBody : Nat → List Char → Option (List Char × List Char)
  | 0, _ => none
  | _, [] => none
  | fuel+1, c :: cs =>
    if c = '"' then some ([], cs)
    else if c = '\\' then
      match cs with
      | [] => none
      | e :: cs2 =>
        let esc : Option (Char × List Char) :=
          if e = '"' then some ('"', cs2)
          else if e = '\\' then some ('\\', cs2)
          else if e = '/' then some ('/', cs2)
          else if e = 'b' then some (Char.ofNat 8, cs2)
          else if e = 'f' then some (Char.ofNat 12, cs2)
          else if e = 'n' then some ('\n', cs2)
          else if e = 'r' then some ('\r', cs2)
          else if e = 't' then some ('\t', cs2)
          else if e = 'u' then
            match cs2 with
            | a :: b :: c2 :: d :: cs3 =>
              match hexVal a, hexVal b, hexVal c2, hexVal d with
              | some ha, some hb, some hc, some hd =>
                  some (Char.ofNat (((ha * 16 + hb) * 16 + hc) * 16 + hd), cs3)
              | _, _, _, _ => none
            | _ => none
          else none
        match esc with
        | some (ch, rest) =>
          match parseStrBody fuel rest with
          | some (tail, rest2) => some (ch :: tail, rest2)
          | none => none
        | none => none
    else if c.toNat < 32 then none
    else
      match parseStrBody fuel cs with
      | some (tail, rest2) => some (c :: tail, rest2)
      | none => none

def natOfDigits (ds : List Char) : Nat :=
  ds.foldl (fun acc c => acc * 10 + (c.toNat - 48)) 0

/-- A JSON number starting at `cs` (integer part, optional fraction,
optional exponent); lenient about leading zeros, which the Python decoder
rejects, and without `NaN`/`Infinity`, which it accepts — neither corner is
relied on by any claim. -/
def parseNumber (cs : List Char) : Option (ℚ × List Char) :=
  let signed : Bool × List Char :=
    match cs with
    | c :: rest => if c = '-' then (true, rest) else (false, cs)
    | [] => (false, [])
  match signed.2.span Char.isDigit with
  | (ds, cs2) =>
    if ds.isEmpty then none
    else
      let ip : ℚ := (natOfDigits ds : ℚ)
      let fracStep : Option (ℚ × List Char) :=
        match cs2 with
        | c :: cs2b =>
          if c = '.' then
            match cs2b.span Char.isDigit with
            | (fds, cs2c) =>
              if fds.isEmpty then none
              else some (ip + (natOfDigits fds : ℚ) / (10 : ℚ) ^ fds.length, cs2c)
          else some (ip, cs2)
        | [] => some (ip, [])
      match fracStep with
      | none => none
      | some (mag, cs3) =>
        let expStep : Option (ℚ × List Char) :=
          match cs3 with
          | e :: cs3b =>
            if e = 'e' ∨ e = 'E' then
              let esigned : Bool × List Char :=
                match cs3b with
                | c :: r =>
                  if c = '+' then (false, r)
                  else if c = '-' then (true, r)
                  else (false, cs3b)
                | [] => (false, [])
              match esigned.2.span Char.isDigit with
              | (eds, cs3c) =>
                if eds.isEmpty then none
                else if esigned.1 then
                  some (mag / (10 : ℚ) ^ natOfDigits eds, cs3c)
                else
                  some (mag * (10 : ℚ) ^ natOfDigits eds, cs3c)
            else some (mag, cs3)
          | [] => some (mag, [])
        match expStep with
        | none => none
        | some (v, cs4) => some (if signed.1 then -v else v, cs4)

mutual
/-- Recursive-descent JSON value parser (fuel-bounded). -/
def parseValue : Nat → List Char → Option (JVal × List Char)
  | 0, _ => none
  | fuel+1, cs =>
    match cs with
    | [] => none
    | c :: rest =>
      if c = '"' then
        match parseStrBody (fuel+1) rest with
        | some (chars, rest2) => some (.jstr (String.mk chars), rest2)
        | none => none
      else if c = lbrace then
        match skipWs rest with
        | c2 :: rest3 =>
          if c2 = rbrace then some (.jobj [], rest3)
          else parseObjFields fuel (skipWs rest) []
        | [] => none
      else if c = '[' then
        match skipWs rest with
        | c2 :: rest3 =>
          if c2 = ']' then some (.jarr [], rest3)
          else parseArrElems fuel (skipWs rest) []
        | [] => none
      else if c = 't' then
        match cs with
        | 't' :: 'r' :: 'u' :: 'e' :: r2 => some (.jbool true, r2)
        | _ => none
      else if c = 'f' then
        match cs with
        | 'f' :: 'a' :: 'l' :: 's' :: 'e' :: r2 => some (.jbool false, r2)
        | _ => none
      else if c = 'n' then
        match cs with
        | 'n' :: 'u' :: 'l' :: 'l' :: r2 => some (.jnull, r2)
        | _ => none
      else if c = '-' ∨ c.isDigit then
        match parseNumber cs with
        | some (q, r2) => some (.jnum q, r2)
        | none => none
      else none

/-- Fields of a JSON object after the opening brace (non-empty case). -/
def parseObjFields : Nat → List Char → List (String × JVal) →
    Option (JVal × List Char)
  | 0, _, _ => none
  | fuel+1, cs, acc =>
    match skipWs cs with
    | c :: rest =>
      if c = '"' then
        match parseStrBody (fuel+1) rest with
        | some (kchars, rest2) =>
          match skipWs rest2 with
          | ':' :: rest3 =>
            match parseValue fuel (skipWs rest3) with
            | some (v, rest4) =>
              let acc2 := objInsert acc (String.mk kchars) v
              match skipWs rest4 with
              | ',' :: rest5 => parseObjFields fuel rest5 acc2
              | c5 :: rest5 =>
                if c5 = rbrace then some (.jobj acc2, rest5) else none
              | [] => none
            | none => none
          | _ => none
        | none => none
      else none
    | [] => none

/-- Elements of a JSON array after the opening bracket (non-empty case). -/
def parseArrElems : Nat → List Char → List JVal → Option (JVal × List Char)
  | 0, _, _ => none
  | fuel+1, cs, acc =>
    match parseValue fuel (skipWs cs) with
    | some (v, rest) =>
      match skipWs rest with
      | ',' :: rest2 => parseArrElems fuel rest2 (acc ++ [v])
      | c2 :: rest2 =>
        if c2 = ']' then some (.jarr (acc ++ [v]), rest2) else none
      | [] => none
    | none => none
end

/-- `json.loads` on a string: a complete JSON document, or failure
(`json.JSONDecodeError`), modelled as `none`. -/
def jsonParse (s : String) : Option JVal :=
  match parseValue (2 * s.length + 2) (skipWs s.data) with
  | some (v, rest) => if (skipWs rest).isEmpty then some v else none
  | none => none

/-! ### Python value helpers and the response normalizer -/

/-- Python truthiness of a decoded JSON value. -/
def pyTruthy : JVal → Bool
  | .jnull => false
  | .jbool b => b
  | .jnum q => decide (q ≠ 0)
  | .jstr s => !s.isEmpty
  | .jarr xs => !xs.isEmpty
  | .jobj fs => !fs.isEmpty

mutual
/-- Python `str()` of a decoded JSON value.  Strings map to themselves (the
only case a claim relies on); for the other cases the repr-style layout is a
deterministic stand-in for the dynamic typing of the Python code, where a
non-string value can reach a string-typed slot. -/
def pyStr : JVal → String
  | .jstr s => s
  | .jnull => "None"
  | .jbool true => "True"
  | .jbool false => "False"
  | .jnum q => toString q
  | .jarr xs => "[" ++ pyStrList xs ++ "]"
  | .jobj fs => String.mk [lbrace] ++ pyStrFields fs ++ String.mk [rbrace]

def pyStrList : List JVal → String
  | [] => ""
  | [x] => pyStr x
  | x :: xs => pyStr x ++ ", " ++ pyStrList xs

def pyStrFields : List (String × JVal) → String
  | [] => ""
  | [(k, v)] => k ++ ": " ++ pyStr v
  | (k, v) :: fs => k ++ ": " ++ pyStr v ++ ", " ++ pyStrFields fs
end

mutual
/-- `json.dumps(v, indent=2)`; the exact multi-line layout of the Python
pretty-printer is not relied on by any claim, a single-line rendering
stands in for it. -/
def jsonDumps : JVal → String
  | .jnull => "null"
  | .jbool true => "true"
  | .jbool false => "false"
  | .jnum q => toString q
  | .jstr s => "\"" ++ s ++ "\""
  | .jarr xs => "[" ++ jsonDumpsList xs ++ "]"
  | .jobj fs => String.mk [lbrace] ++ jsonDumpsFields fs ++ String.mk [rbrace]

def jsonDumpsList : List JVal → String
  | [] => ""
  | [x] => jsonDumps x
  | x :: xs => jsonDumps x ++ ", " ++ jsonDumpsList xs

def jsonDumpsFields : List (String × JVal) → String
  | [] => ""
  | [(k, v)] => "\"" ++ k ++ "\": " ++ jsonDumps v
  | (k, v) :: fs => "\"" ++ k ++ "\": " ++ jsonDumps v ++ ", " ++ jsonDumpsFields fs
end

/-- Modelled from the spec: the external `pandas.DataFrame(data).to_markdown`
rendering used by `_format_data_as_table` (the pandas library is not part of
this repository).  A markdown table is produced for a uniform list of
records; any other shape fails, triggering the JSON fallback of the caller.
No claim depends on the produced text. -/
def pandasMarkdown (data : JVal) : Option String :=
  match data with
  | .jarr rows =>
    match rows with
    | .jobj f0 :: _ =>
      let keys := f0.map (fun p => p.1)
      let uniform := rows.all (fun r =>
        match r with
        | .jobj fr => decide (fr.map (fun p => p.1) = keys)
        | _ => false)
      if uniform then
        let header := "| " ++ String.intercalate " | " keys ++ " |"
        let body := rows.map (fun r =>
          match r with
          | .jobj fr => "| " ++ String.intercalate " | " (fr.map (fun p => pyStr p.2)) ++ " |"
          | _ => "")
        some (String.intercalate "\n" (header :: body))
      else none
    | _ => none
  | _ => none

/-- `GenieMCPClient._format_data_as_table`, lines 222–231. -/
def _format_data_as_table (data : JVal) : String :=
  if pyTruthy data = false then "No data found."
  else
    match pandasMarkdown data with
    | some md => md
    | none => jsonDumps data

/-- `GenieMCPClient._format_response`, lines 200–220. -/
def _format_response (response : JVal) : String :=
  match response with
  | .jstr s =>
    match jsonParse s with
    | some (.jarr xs) => _format_data_as_table (.jarr xs)
    | some (.jobj fs) =>
      match objLookup fs "data" with
      | some d => _format_data_as_table d
      | none => jsonDumps (.jobj fs)
    | some _ => s
    | none => s
  | .jarr xs => _format_data_as_table (.jarr xs)
  | .jobj fs =>
    match objLookup fs "data" with
    | some d => _format_data_as_table d
    | none => jsonDumps (.jobj fs)
  | other => pyStr other

/-! ### The Genie MCP client (`utils/genie_client.py`) -/

/-- Python exceptions that the client's operations can raise. -/
inductive PyExc where
  | httpStatusError (status : Nat)
  | jsonDecodeError
  | typeError
  | attributeError
  | keyError
  | indexError
  | transportError (msg : String)

/-- `str(e)` of an exception (a deterministic stand-in; no claim inspects
the text beyond it being some string). -/
def excStr : PyExc → String
  | .httpStatusError st => "HTTP status error " ++ toString st
  | .jsonDecodeError => "JSON decode error"
  | .typeError => "type error"
  | .attributeError => "attribute error"
  | .keyError => "key error"
  | .indexError => "index error"
  | .transportError m => m

/-- `d.get(key, dflt)`: dict lookup with default; `AttributeError` on a
non-dict receiver, as in Python. -/
def pyGet (v : JVal) (key : String) (dflt : JVal) : Except PyExc JVal :=
  match v with
  | .jobj fs => .ok ((objLookup fs key).getD dflt)
  | _ => .error .attributeError

/-- `d.get(key)`: dict lookup defaulting to `None`. -/
def pyGetN (v : JVal) (key : String) : Except PyExc (Option JVal) :=
  match v with
  | .jobj fs => .ok (objLookup fs key)
  | _ => .error .attributeError

/-- Python substring test `pat in s`. -/
def strContains (s pat : String) : Bool :=
  anyIdx s.data.length (fun i => litAt s.data pat.data i)

def isStrEqJ (x : JVal) (s : String) : Bool :=
  match x with
  | .jstr t => t == s
  | _ => false

/-- Python `key in v` for a decoded JSON value: key membership for dicts,
element equality for lists, substring for strings, `TypeError` otherwise. -/
def pyContains (v : JVal) (key : String) : Except PyExc Bool :=
  match v with
  | .jobj fs => .ok (fs.any (fun p => p.1 == key))
  | .jarr xs => .ok (xs.any (fun x => isStrEqJ x key))
  | .jstr s => .ok (strContains s key)
  | _ => .error .typeError

/-- Python `len(v)`. -/
def pyLen (v : JVal) : Except PyExc Nat :=
  match v with
  | .jstr s => .ok s.length
  | .jarr xs => .ok xs.length
  | .jobj fs => .ok fs.length
  | _ => .error .typeError

/-- Python `v[0]`. -/
def pyIndex0 (v : JVal) : Except PyExc JVal :=
  match v with
  | .jarr (x :: _) => .ok x
  | .jarr [] => .error .indexError
  | .jstr s =>
    match s.data with
    | c :: _ => .ok (.jstr (String.mk [c]))
    | [] => .error .indexError
  | .jobj _ => .error .keyError
  | _ => .error .typeError

/-- `json.loads(v)`: `TypeError` on a non-string argument, decode failure
(`none`) on a string that is not valid JSON. -/
def jsonLoads (v : JVal) : Except PyExc (Option JVal) :=
  match v with
  | .jstr s => .ok (jsonParse s)
  | _ => .error .typeError

/-- Python `str.lower` (ASCII). -/
def lowerString (s : String) : String := String.mk (lowerChars s.data)

def rateLimitMsg : String :=
  "The service is currently experiencing high demand. Please try again in a few moments."

def timeoutMsg : String := "Query timed out. Please try again."

def expiredMsg : String := "The conversation has expired. Please try your query again."

def noResponseMsg : String := "No response from Genie Space."

/-- What `response.json()` produced for one HTTP exchange. -/
inductive BodyOutcome where
  | decodeError
  | json (v : JVal)

/-- The outcome of one outbound call: an exception raised while building
headers (token minting) or sending (`client.post`), or a response with a
status code and a body. -/
inductive CallOutcome where
  | exc (e : PyExc)
  | resp (status : Nat) (body : BodyOutcome)

/-- Oracle for the whole remote behaviour of one `query_genie` invocation:
the outcome of the initial tool call and of every subsequent poll call. -/
structure Env where
  first : CallOutcome
  polls : Nat → CallOutcome

/-- `self.conversation_ids`, the in-memory session → conversation map. -/
abbrev ConvMap := String → Option String

def emptyConv : ConvMap := fun _ => none

/-- `self.conversation_ids[session_id] = v` (dict assignment, line 93). -/
def setConv (m : ConvMap) (session_id v : String) : ConvMap :=
  fun x => if x = session_id then some v else m x

/-- `GenieMCPClient.get_conversation_id`, lines 233–235. -/
def get_conversation_id (m : ConvMap) (session_id : String) : Option String :=
  m session_id

/-- `GenieMCPClient.clear_conversation`, lines 237–240 (`del` guarded by a
membership test; pointwise equal to unconditional removal). -/
def clear_conversation (m : ConvMap) (session_id : String) : ConvMap :=
  fun x => if x = session_id then none else m x

/-! The poll loop (`GenieMCPClient._poll_for_completion`, lines 121–198). -/

/-- The body of one iteration of the poll loop (lines 143–192), inside its
per-attempt `try`: `none` means fall through to the sleep and the next
attempt (a 429 response, a still-pending status, or undecodable content);
`some (text, err)` means return; a thrown exception is caught by the
enclosing handler (line 194), which also continues. -/
def pollAttemptBody (o : CallOutcome) :
    Except PyExc (Option (String × Option String)) := do
  match o with
  | .exc e => throw e
  | .resp status body =>
    if status = 429 then
      return none
    else if ¬ (200 ≤ status ∧ status < 300) then
      throw (.httpStatusError status)
    else
      match body with
      | .decodeError => throw .jsonDecodeError
      | .json result => do
        let hasErr ← pyContains result "error"
        if hasErr then
          let eobj ← pyGet result "error" (.jobj [])
          let emsg ← pyGet eobj "message" (.jstr "Unknown error")
          match emsg with
          | .jstr m =>
            if strContains (lowerString m) "expired" ||
                strContains (lowerString m) "not found" then
              return some ("", some expiredMsg)
            else
              return some ("", some m)
          | _ => throw .attributeError
        else
          let resObj ← pyGet result "result" (.jobj [])
          let content ← pyGet resObj "content" (.jarr [])
          if pyTruthy content then
            let n ← pyLen content
            if 0 < n then
              let item ← pyIndex0 content
              let textJ ← pyGet item "text" (.jstr "")
              let parsedOpt ← jsonLoads textJ
              match parsedOpt with
              | none => return none
              | some parsed =>
                let statusJ ← pyGet parsed "status" (.jstr "")
                match statusJ with
                | .jstr st =>
                  if lowerString st = "completed" ∨ lowerString st = "complete" then
                    let respJ ← pyGet parsed "response" textJ
                    return some (_format_response respJ, none)
                  else if lowerString st = "error" ∨ lowerString st = "failed" then
                    let errJ ← pyGet parsed "error" (.jstr "Query failed")
                    return some ("", some (pyStr errJ))
                  else
                    return none
                | _ => throw .attributeError
            else return none
          else return none

/-- One poll attempt with its catch-all handler: an exception means keep
polling. -/
def pollAttempt (o : CallOutcome) : Option (String × Option String) :=
  match pollAttemptBody o with
  | .ok r => r
  | .error _ => none

/-- The `for attempt in range(max_attempts)` loop: `i` is the next attempt
index, the second argument the remaining attempts.  The returned `Nat`
instruments the number of poll calls issued (each iteration issues exactly
one). -/
def pollLoop (polls : Nat → CallOutcome) :
    Nat → Nat → (String × Option String) × Nat
  | _, 0 => (("", some timeoutMsg), 0)
  | i, r+1 =>
    match pollAttempt (polls i) with
    | some res => (res, 1)
    | none =>
      let rest := pollLoop polls (i+1) r
      (rest.1, rest.2 + 1)

/-- `GenieMCPClient._poll_for_completion`, lines 121–198.  The
`conversation_id` / `message_id` arguments only shape the outbound payload,
which the oracle `polls` abstracts over; `poll_interval` sleeps are
behaviour-free suspensions and are not modelled. -/
def _poll_for_completion (polls : Nat → CallOutcome)
    (conversation_id message_id : Option String) (max_attempts : Nat) :
    (String × Option String) × Nat :=
  pollLoop polls 0 max_attempts

/-! The initial tool call (`GenieMCPClient.query_genie`, lines 30–119). -/

/-- Outcome of interpreting a 2xx JSON body (lines 77–90): a top-level error
with its message; no/falsy content; content whose text is not JSON; or
parsed JSON with its `conversation_id` / `message_id` / `status` / `response`
fields.  `respJ` (line 104) is read eagerly here: whenever the earlier `get`
calls succeeded, `parsed` is a dict and the read cannot fail, so the order
is observably the same as in the source. -/
inductive PreResult where
  | errBody (emsg : JVal)
  | noContent
  | rawText (textJ : JVal)
  | parsedOk (textJ : JVal) (cidJ : Option JVal) (midJ : Option JVal)
      (statusJ : JVal) (respJ : JVal)

def genieParse (result : JVal) : Except PyExc PreResult := do
  let hasErr ← pyContains result "error"
  if hasErr then
    let eobj ← pyGet result "error" (.jobj [])
    let emsg ← pyGet eobj "message" (.jstr "Unknown error")
    return .errBody emsg
  else
    let resObj ← pyGet result "result" (.jobj [])
    let content ← pyGet resObj "content" (.jarr [])
    if pyTruthy content then
      let n ← pyLen content
      if 0 < n then
        let item ← pyIndex0 content
        let textJ ← pyGet item "text" (.jstr "")
        let parsedOpt ← jsonLoads textJ
        match parsedOpt with
        | none => return .rawText textJ
        | some parsed =>
          let cidJ ← pyGetN parsed "conversation_id"
          let midJ ← pyGetN parsed "message_id"
          let statusJ ← pyGet parsed "status" (.jstr "")
          let respJ ← pyGet parsed "response" textJ
          return .parsedOk textJ cidJ midJ statusJ respJ
      else return .noContent
    else return .noContent

/-- Lines 92–93: record the new conversation id for the session when it is
truthy. -/
def genieUpdateState (st : ConvMap) (session_id : String) (cidJ : Option JVal) :
    ConvMap :=
  match cidJ with
  | some v => if pyTruthy v then setConv st session_id (pyStr v) else st
  | none => st

/-- Lines 95–105: check the parsed status (`.lower()` raises on a non-string
status), poll if not completed, otherwise normalize the `response` field. -/
def genieFinish (polls : Nat → CallOutcome) (cidJ midJ : Option JVal)
    (statusJ respJ : JVal) (conversation_id : Option String) :
    Except PyExc (String × Option String × Option String) :=
  let newCid := cidJ.map pyStr
  match statusJ with
  | .jstr stat =>
    if ¬ (lowerString stat = "completed" ∨ lowerString stat = "complete") then
      let pollCid :=
        match cidJ with
        | some v => if pyTruthy v then some (pyStr v) else conversation_id
        | none => conversation_id
      match _poll_for_completion polls pollCid (midJ.map pyStr) 60 with
      | ((_, some err), _) => .ok ("", newCid, some err)
      | ((text, none), _) => .ok (text, newCid, none)
    else
      .ok (_format_response respJ, newCid, none)
  | _ => .error .attributeError

/-- The `try` block of `query_genie` (lines 47–110), threading the
conversation-id map: the second component is the map after the call,
reflecting that the assignment of line 93 persists even when a later
exception is thrown. -/
def query_genie_try (env : Env) (query session_id : String)
    (conversation_id : Option String) (st : ConvMap) :
    Except PyExc (String × Option String × Option String) × ConvMap :=
  match env.first with
  | .exc e => (.error e, st)
  | .resp status body =>
    if status = 429 then
      (.ok ("", none, some rateLimitMsg), st)
    else if ¬ (200 ≤ status ∧ status < 300) then
      (.error (.httpStatusError status), st)
    else
      match body with
      | .decodeError => (.error .jsonDecodeError, st)
      | .json result =>
        match genieParse result with
        | .error e => (.error e, st)
        | .ok (.errBody emsg) => (.ok ("", none, some (pyStr emsg)), st)
        | .ok .noContent => (.ok (noResponseMsg, conversation_id, none), st)
        | .ok (.rawText textJ) =>
          (.ok (_format_response textJ, conversation_id, none), st)
        | .ok (.parsedOk _textJ cidJ midJ statusJ respJ) =>
          (genieFinish env.polls cidJ midJ statusJ respJ conversation_id,
           genieUpdateState st session_id cidJ)

/-- The `except` handlers of lines 112–119: an `httpx.HTTPStatusError` for
status 429 gets the rate-limit message, every other exception the generic
message; both keep the caller-supplied conversation id. -/
def genieExcMsg (conversation_id : Option String) :
    PyExc → String × Option String × Option String
  | .httpStatusError 429 => ("", conversation_id, some rateLimitMsg)
  | e => ("", conversation_id, some ("Error querying Genie Space: " ++ excStr e))

/-- `GenieMCPClient.query_genie`, lines 30–119. -/
def query_genie (env : Env) (query session_id : String)
    (conversation_id : Option String) (st : ConvMap) :
    (String × Option String × Option String) × ConvMap :=
  match query_genie_try env query session_id conversation_id st with
  | (.ok t, st2) => (t, st2)
  | (.error e, st2) => (genieExcMsg conversation_id e, st2)

/-! ### Concrete oracles used by witnesses -/

/-- Oracle in which every call raises a transport exception. -/
def envBoom : Env :=
  ⟨.exc (.transportError "boom"), fun _ => .exc (.transportError "boom")⟩

/-- The poll-body text of a never-completing ("pending") response. -/
def pendingText : String := "\x7b\"status\": \"pending\"\x7d"

def pendingBody : JVal :=
  .jobj [("result", .jobj [("content", .jarr [.jobj [("text", .jstr pendingText)]])])]

/-- Oracle whose every poll answers 200 with a pending status. -/
def pendingPolls : Nat → CallOutcome := fun _ => .resp 200 (.json pendingBody)

/-- Oracle whose every poll answers 200 with a top-level
"conversation not found" error. -/
def errPolls : Nat → CallOutcome := fun _ =>
  .resp 200 (.json (.jobj [("error", .jobj [("message", .jstr "conversation not found")])]))

/-! ### Helper lemmas about the cascade -/

theorem classifyCounts_snd_eq (d g : Nat) :
    (classifyCounts d g).2 = confOfBranch (branchIdx d g) (absMargin d g) := by
  unfold classifyCounts branchIdx
  split_ifs with h1 h2 h3 h4
  · have hm : absMargin d g = d := by unfold absMargin; omega
    simp [confOfBranch, hm]
  · have hm : absMargin d g = g := by unfold absMargin; omega
    simp [confOfBranch, hm]
  · have hm : absMargin d g = d - g := by unfold absMargin; omega
    have hc : ((d - g : Nat) : ℚ) = (d : ℚ) - (g : ℚ) := by
      push_cast [Nat.cast_sub (le_of_lt h3)]; ring
    simp [confOfBranch, hm, hc]
  · have hm : absMargin d g = g - d := by unfold absMargin; omega
    have hc : ((g - d : Nat) : ℚ) = (g : ℚ) - (d : ℚ) := by
      push_cast [Nat.cast_sub (le_of_lt h4)]; ring
    simp [confOfBranch, hm, hc]
  · simp [confOfBranch]

theorem confOfBranch_mono (b : Nat) {m1 m2 : Nat} (h : m1 ≤ m2) :
    confOfBranch b m1 ≤ confOfBranch b m2 := by
  unfold confOfBranch
  have hq : (m1 : ℚ) ≤ (m2 : ℚ) := by exact_mod_cast h
  split_ifs
  · exact min_le_min (by nlinarith) le_rfl
  · exact min_le_min (by nlinarith) le_rfl
  · exact le_rfl

theorem confOfBranch_range (b m : Nat) :
    1/2 ≤ confOfBranch b m ∧ confOfBranch b m ≤ 19/20 := by
  unfold confOfBranch
  have hm : (0 : ℚ) ≤ (m : ℚ) := by positivity
  split_ifs
  · constructor
    · exact le_min (by nlinarith) (by norm_num)
    · exact le_trans (min_le_right _ _) (by norm_num)
  · constructor
    · exact le_min (by nlinarith) (by norm_num)
    · exact le_trans (min_le_right _ _) (by norm_num)
  · norm_num

theorem classify_query_eq_counts (q : String) :
    classify_query q =
      classifyCounts (dataMatchCount (normalizeQuery q)) (generalMatchCount (normalizeQuery q)) :=
  rfl

theorem confidence_ge_half (q : String) : 1/2 ≤ (classify_query q).2 := by
  rw [classify_query_eq_counts, classifyCounts_snd_eq]
  exact (confOfBranch_range _ _).1

theorem confidence_le (q : String) : (classify_query q).2 ≤ 19/20 := by
  rw [classify_query_eq_counts, classifyCounts_snd_eq]
  exact (confOfBranch_range _ _).2

/-! ### Claim theorems for the router -/

/-- Claim C1: for every query string, `classify_query` applies the tie-break
rules in order, first matching rule wins, returning exactly the category and
`min`-capped confidence the specification states for the two pattern-match
counts over the lowercased trimmed query. -/
theorem classify_query_tie_break_order (q : String) :
    classify_query q =
      classifySpecCascade (dataMatchCount (normalizeQuery q)) (generalMatchCount (normalizeQuery q)) := by
  rw [classify_query_eq_counts]
  unfold classifyCounts classifySpecCascade
  split_ifs <;> simp [mul_comm]

/-- Claim C4 counterexample: the query `""` has a strictly larger signed
margin (0) than the query `"explain"` (−1), yet receives a strictly smaller
confidence (0.5 < 0.6), so confidence is not monotonically non-decreasing in
the signed margin `dataMatches - generalMatches`. -/
theorem classify_margin_mono_cex :
    signedMargin "explain" < signedMargin "" ∧
    (classify_query "").2 < (classify_query "explain").2 := by
  constructor
  · decide
  · have h1 : dataMatchCount (normalizeQuery "") = 0 := by decide
    have h2 : generalMatchCount (normalizeQuery "") = 0 := by decide
    have h3 : dataMatchCount (normalizeQuery "explain") = 0 := by decide
    have h4 : generalMatchCount (normalizeQuery "explain") = 1 := by decide
    rw [classify_query_eq_counts, classify_query_eq_counts, h1, h2, h3, h4]
    unfold classifyCounts
    norm_num [min_def]

/-- Claim C4 (amended): for every query the confidence lies in [0.5, 0.95];
and the confidence is monotonically non-decreasing in the absolute margin
`|dataMatches - generalMatches|` among queries that fall into the same
tie-break branch of the cascade (monotonicity in the signed margin across
different branches fails, see the counterexample). -/
theorem classify_confidence_range_and_branch_mono :
    (∀ q : String, 1/2 ≤ (classify_query q).2 ∧ (classify_query q).2 ≤ 19/20) ∧
    (∀ q1 q2 : String,
      branchIdx (dataMatchCount (normalizeQuery q1)) (generalMatchCount (normalizeQuery q1)) =
        branchIdx (dataMatchCount (normalizeQuery q2)) (generalMatchCount (normalizeQuery q2)) →
      absMargin (dataMatchCount (normalizeQuery q1)) (generalMatchCount (normalizeQuery q1)) ≤
        absMargin (dataMatchCount (normalizeQuery q2)) (generalMatchCount (normalizeQuery q2)) →
      (classify_query q1).2 ≤ (classify_query q2).2) := by
  constructor
  · intro q
    exact ⟨confidence_ge_half q, confidence_le q⟩
  · intro q1 q2 hb hm
    rw [classify_query_eq_counts, classify_query_eq_counts,
        classifyCounts_snd_eq, classifyCounts_snd_eq, hb]
    exact confOfBranch_mono _ hm

/-- Claim C4 amended witness at concrete queries `"explain"` and
`"explain tutorial"` (same branch, margins 1 ≤ 2, confidences 0.6 ≤ 0.7). -/
theorem classify_confidence_range_and_branch_mono_witness :
    (1/2 ≤ (classify_query "explain").2 ∧ (classify_query "explain").2 ≤ 19/20) ∧
    (classify_query "explain").2 ≤ (classify_query "explain tutorial").2 :=
  ⟨classify_confidence_range_and_branch_mono.1 "explain",
   classify_confidence_range_and_branch_mono.2 "explain" "explain tutorial"
     (by decide) (by decide)⟩

/-- Claim C5 counterexample: `classify_query "explain how neural networks
work"` returns category GENERAL but confidence 0.6 < 0.7 (only the pattern
`\bexplain\b` matches; `\bhow does\b.*\bwork\b` does not, as the query has no
"does"), refuting the claimed bound of at least 0.7. -/
theorem classify_example_general_cex :
    (classify_query "explain how neural networks work").1 = QueryType.GENERAL ∧
    (classify_query "explain how neural networks work").2 < 7/10 := by
  have h1 : dataMatchCount (normalizeQuery "explain how neural networks work") = 0 := by decide
  have h2 : generalMatchCount (normalizeQuery "explain how neural networks work") = 1 := by decide
  rw [classify_query_eq_counts, h1, h2]
  unfold classifyCounts
  norm_num [min_def]

/-- Claim C5 (amended): `classify_query` on "how many clients have a housing
risk flag" returns (DATA, ≥ 0.7) — in fact 0.8 — and on "explain how neural
networks work" returns (GENERAL, ≥ 0.6) — in fact exactly 0.6, not ≥ 0.7 as
originally claimed. -/
theorem classify_example_queries :
    ((classify_query "how many clients have a housing risk flag").1 = QueryType.DATA ∧
      7/10 ≤ (classify_query "how many clients have a housing risk flag").2) ∧
    ((classify_query "explain how neural networks work").1 = QueryType.GENERAL ∧
      3/5 ≤ (classify_query "explain how neural networks work").2) := by
  have h1 : dataMatchCount (normalizeQuery "how many clients have a housing risk flag") = 3 := by
    decide
  have h2 : generalMatchCount (normalizeQuery "how many clients have a housing risk flag") = 0 := by
    decide
  have h3 : dataMatchCount (normalizeQuery "explain how neural networks work") = 0 := by decide
  have h4 : generalMatchCount (normalizeQuery "explain how neural networks work") = 1 := by decide
  constructor
  · rw [classify_query_eq_counts, h1, h2]
    unfold classifyCounts
    norm_num [min_def]
  · rw [classify_query_eq_counts, h3, h4]
    unfold classifyCounts
    norm_num [min_def]

/-- Claim C6: `should_route_to_genie` is true iff the classification is
(DATA, confidence ≥ 0.5); since the confidence is never below 0.5, this is
equivalent to the category being DATA. -/
theorem should_route_iff_data (q : String) :
    (should_route_to_genie q = true ↔
      ((classify_query q).1 = QueryType.DATA ∧ (0.5 : ℚ) ≤ (classify_query q).2)) ∧
    (should_route_to_genie q = true ↔ (classify_query q).1 = QueryType.DATA) := by
  have hconf : (0.5 : ℚ) ≤ (classify_query q).2 := by
    linarith [confidence_ge_half q]
  have hcore : should_route_to_genie q = true ↔ (classify_query q).1 = QueryType.DATA := by
    constructor
    · intro h
      simp only [should_route_to_genie, Bool.and_eq_true, decide_eq_true_iff] at h
      exact h.1
    · intro h
      simp only [should_route_to_genie, Bool.and_eq_true, decide_eq_true_iff]
      exact ⟨h, hconf⟩
  refine ⟨?_, hcore⟩
  rw [hcore]
  exact ⟨fun h => ⟨h, hconf⟩, fun h => h.1⟩

/-- Claim C9: a string payload that is not valid JSON is returned unchanged
by `_format_response`, so normalization is idempotent on already-normalized
plain strings. -/
theorem format_response_non_json_unchanged (s : String) (h : jsonParse s = none) :
    _format_response (.jstr s) = s := by
  simp only [_format_response, h]

/-- Claim C9 witness at the concrete non-JSON string "hello". -/
theorem format_response_non_json_unchanged_witness :
    jsonParse "hello" = none ∧ _format_response (JVal.jstr "hello") = "hello" :=
  ⟨rfl, format_response_non_json_unchanged "hello" rfl⟩


/-! ### Theorems about the Genie client -/

theorem exceptBind_ok {α β : Type} (a : α) (f : α → Except PyExc β) :
    (Except.ok a >>= f : Except PyExc β) = f a := rfl

theorem exceptPure_eq {α : Type} (a : α) : (pure a : Except PyExc α) = .ok a := rfl

theorem objLookup_any (fs : List (String × JVal)) (k : String) (v : JVal)
    (h : objLookup fs k = some v) : fs.any (fun p => p.1 == k) = true := by
  induction fs with
  | nil => simp [objLookup] at h
  | cons p rest ih =>
    rcases p with ⟨k1, v1⟩
    simp only [objLookup] at h
    by_cases hk : k1 = k
    · simp [hk]
    · rw [if_neg hk] at h
      simp [ih h]

theorem pollLoop_count_le (polls : Nat → CallOutcome) :
    ∀ r i : Nat, (pollLoop polls i r).2 ≤ r := by
  intro r
  induction r with
  | zero => intro i; simp [pollLoop]
  | succ r ih =>
    intro i
    simp only [pollLoop]
    cases pollAttempt (polls i) with
    | some res => simp
    | none => simpa using ih (i+1)

/-- Claim C3: the poll loop issues at most `max_attempts` poll calls and
terminates; an HTTP 429 response is not terminal and, like every other
non-terminal iteration, consumes exactly one attempt slot; and a status
sequence of 60 consecutive "pending" responses returns empty text with the
error "Query timed out. Please try again." after exactly 60 poll calls. -/
theorem poll_budget_and_timeout :
    (∀ (polls : Nat → CallOutcome) (c m : Option String) (n : Nat),
      (_poll_for_completion polls c m n).2 ≤ n) ∧
    (∀ body : BodyOutcome, pollAttempt (.resp 429 body) = none) ∧
    (∀ (polls : Nat → CallOutcome) (i r : Nat),
      pollAttempt (polls i) = none →
      pollLoop polls i (r+1) =
        ((pollLoop polls (i+1) r).1, (pollLoop polls (i+1) r).2 + 1)) ∧
    _poll_for_completion pendingPolls none none 60 = (("", some timeoutMsg), 60) := by
  refine ⟨?_, ?_, ?_, ?_⟩
  · intro polls c m n
    exact pollLoop_count_le polls n 0
  · intro body
    rfl
  · intro polls i r h
    simp [pollLoop, h]
  · rfl

/-- Claim C3 witness: a 429 poll response consumes one attempt slot at a
concrete oracle and budget. -/
theorem poll_budget_and_timeout_witness :
    pollAttempt (CallOutcome.resp 429 (BodyOutcome.json (JVal.jobj []))) = none ∧
    pollLoop pendingPolls 0 2 =
      ((pollLoop pendingPolls 1 1).1, (pollLoop pendingPolls 1 1).2 + 1) :=
  ⟨poll_budget_and_timeout.2.1 _, poll_budget_and_timeout.2.2.1 pendingPolls 0 1 rfl⟩

/-- Claim C7: a poll response carrying a top-level error whose message
contains "expired" or "not found" (case-insensitively) terminates the loop
at once with exactly the fixed expired-conversation message, and any other
top-level error message terminates it with the service-supplied text. -/
theorem poll_expired_or_service_error (polls : Nat → CallOutcome)
    (c m : Option String) (n status : Nat) (fs efs : List (String × JVal)) (msg : String)
    (h2a : 200 ≤ status) (h2b : status < 300)
    (hp : polls 0 = .resp status (.json (.jobj fs)))
    (herr : objLookup fs "error" = some (.jobj efs))
    (hmsg : objLookup efs "message" = some (.jstr msg))
    (hn : 0 < n) :
    _poll_for_completion polls c m n =
      (("", some (if strContains (lowerString msg) "expired" ||
                    strContains (lowerString msg) "not found"
                  then expiredMsg else msg)), 1) := by
  obtain ⟨r, rfl⟩ : ∃ r, n = r + 1 := ⟨n - 1, by omega⟩
  have h429 : ¬ (status = 429) := by omega
  have hAttempt : pollAttempt (polls 0) =
      some ("", some (if strContains (lowerString msg) "expired" ||
                        strContains (lowerString msg) "not found"
                      then expiredMsg else msg)) := by
    rw [hp]
    have hany := objLookup_any fs "error" _ herr
    simp [pollAttempt, pollAttemptBody, h429, h2a, h2b, pyContains, hany,
          pyGet, herr, hmsg, exceptBind_ok, exceptPure_eq]
    split_ifs <;> rfl
  show pollLoop polls 0 (r+1) = _
  simp [pollLoop, hAttempt]

/-- Claim C7 witness: a poll response with error message "conversation not
found" yields the expired-conversation error after one poll call. -/
theorem poll_expired_or_service_error_witness :
    _poll_for_completion errPolls none none 60 = (("", some expiredMsg), 1) := by
  have h := poll_expired_or_service_error errPolls none none 60 200
    [("error", .jobj [("message", .jstr "conversation not found")])]
    [("message", .jstr "conversation not found")] "conversation not found"
    (by omega) (by omega) rfl rfl rfl (by omega)
  rw [h]
  decide

/-- Claim C8: the conversation tracker satisfies set-then-get, clear-then-get,
clear-on-absent-is-a-no-op, and set-twice-returns-the-second-value. -/
theorem conversation_tracker_ops (st : ConvMap) (s c c1 c2 : String) :
    get_conversation_id (setConv st s c) s = some c ∧
    get_conversation_id (clear_conversation (setConv st s c) s) s = none ∧
    (get_conversation_id st s = none → ∀ x, clear_conversation st s x = st x) ∧
    get_conversation_id (setConv (setConv st s c1) s c2) s = some c2 := by
  refine ⟨?_, ?_, ?_, ?_⟩
  · simp [get_conversation_id, setConv]
  · simp [get_conversation_id, setConv, clear_conversation]
  · intro h x
    by_cases hx : x = s
    · subst hx
      simpa [clear_conversation] using h.symm
    · simp [clear_conversation, hx]
  · simp [get_conversation_id, setConv]

/-- Claim C8 witness at a concrete map and ids. -/
theorem conversation_tracker_ops_witness :
    get_conversation_id (setConv emptyConv "s1" "c1") "s1" = some "c1" ∧
    clear_conversation emptyConv "s1" "x" = emptyConv "x" :=
  ⟨(conversation_tracker_ops emptyConv "s1" "c1" "a" "b").1,
   (conversation_tracker_ops emptyConv "s1" "c1" "a" "b").2.2.1 rfl "x"⟩

/-- Claim C2: for every behaviour of the remote service and token issuer —
including any exception in sending, decoding or polling — `query_genie`
returns a (text, optional conversation id, optional error) triple; every
exception thrown inside the `try` block is converted by the handlers into
the documented error triple and never propagates. -/
theorem query_genie_total_and_handles (env : Env) (query session_id : String)
    (conversation_id : Option String) (st : ConvMap) :
    (∃ text newCid err st2,
      query_genie env query session_id conversation_id st = ((text, newCid, err), st2)) ∧
    (∀ e st2,
      query_genie_try env query session_id conversation_id st = (.error e, st2) →
      query_genie env query session_id conversation_id st =
        (genieExcMsg conversation_id e, st2)) := by
  constructor
  · rcases h : query_genie_try env query session_id conversation_id st with ⟨res, st2⟩
    cases res with
    | ok t =>
      exact ⟨t.1, t.2.1, t.2.2, st2, by simp [query_genie, h]⟩
    | error e =>
      exact ⟨(genieExcMsg conversation_id e).1, (genieExcMsg conversation_id e).2.1,
        (genieExcMsg conversation_id e).2.2, st2, by simp [query_genie, h]⟩
  · intro e st2 h
    simp [query_genie, h]

/-- Claim C2 witness: a raising transport yields the generic error triple. -/
theorem query_genie_total_and_handles_witness :
    query_genie envBoom "q" "sess" none emptyConv =
      (("", none, some "Error querying Genie Space: boom"), emptyConv) := by
  have h := (query_genie_total_and_handles envBoom "q" "sess" none emptyConv).2
    (.transportError "boom") emptyConv rfl
  simpa [genieExcMsg, excStr] using h

theorem query_genie_state_eq (env : Env) (query session_id : String)
    (conversation_id : Option String) (st : ConvMap) :
    (query_genie env query session_id conversation_id st).2 =
      (query_genie_try env query session_id conversation_id st).2 := by
  rcases h : query_genie_try env query session_id conversation_id st with ⟨res, st2⟩
  cases res with
  | ok t => simp [query_genie, h]
  | error e => simp [query_genie, h]

/-- Claim C10: an invocation of `query_genie` never modifies the
conversation-id map at a key other than its session id, and modifies the
entry for its session id only when the 2xx response's first content item's
text parses as JSON carrying a truthy (non-empty) `conversation_id`, in
which case that entry is set to that value; on every other outcome the map
is unchanged. -/
theorem query_genie_conv_map_frame (env : Env) (query session_id : String)
    (conversation_id : Option String) (st : ConvMap) :
    (∀ s2, s2 ≠ session_id →
      (query_genie env query session_id conversation_id st).2 s2 = st s2) ∧
    ((query_genie env query session_id conversation_id st).2 session_id = st session_id ∨
      ∃ status result textJ v midJ statusJ respJ,
        env.first = .resp status (.json result) ∧
        200 ≤ status ∧ status < 300 ∧
        genieParse result = .ok (.parsedOk textJ (some v) midJ statusJ respJ) ∧
        pyTruthy v = true ∧
        (query_genie env query session_id conversation_id st).2 session_id =
          some (pyStr v)) := by
  simp only [query_genie_state_eq]
  rcases henv : env.first with e | ⟨status, body⟩
  · have hst : (query_genie_try env query session_id conversation_id st).2 = st := by
      simp [query_genie_try, henv]
    rw [hst]
    exact ⟨fun _ _ => rfl, Or.inl rfl⟩
  · by_cases h429 : status = 429
    · have hst : (query_genie_try env query session_id conversation_id st).2 = st := by
        simp [query_genie_try, henv, h429]
      rw [hst]
      exact ⟨fun _ _ => rfl, Or.inl rfl⟩
    by_cases h2xx : 200 ≤ status ∧ status < 300
    · cases body with
      | decodeError =>
        have hst : (query_genie_try env query session_id conversation_id st).2 = st := by
          simp [query_genie_try, henv, h429, h2xx]
        rw [hst]
        exact ⟨fun _ _ => rfl, Or.inl rfl⟩
      | json result =>
        rcases hp : genieParse result with e2 | pre
        · have hst : (query_genie_try env query session_id conversation_id st).2 = st := by
            simp [query_genie_try, henv, h429, h2xx, hp]
          rw [hst]
          exact ⟨fun _ _ => rfl, Or.inl rfl⟩
        · cases pre with
          | errBody emsg =>
            have hst : (query_genie_try env query session_id conversation_id st).2 = st := by
              simp [query_genie_try, henv, h429, h2xx, hp]
            rw [hst]
            exact ⟨fun _ _ => rfl, Or.inl rfl⟩
          | noContent =>
            have hst : (query_genie_try env query session_id conversation_id st).2 = st := by
              simp [query_genie_try, henv, h429, h2xx, hp]
            rw [hst]
            exact ⟨fun _ _ => rfl, Or.inl rfl⟩
          | rawText textJ =>
            have hst : (query_genie_try env query session_id conversation_id st).2 = st := by
              simp [query_genie_try, henv, h429, h2xx, hp]
            rw [hst]
            exact ⟨fun _ _ => rfl, Or.inl rfl⟩
          | parsedOk textJ cidJ midJ statusJ respJ =>
            have hst : (query_genie_try env query session_id conversation_id st).2 =
                genieUpdateState st session_id cidJ := by
              simp [query_genie_try, henv, h429, h2xx, hp]
            rw [hst]
            cases cidJ with
            | none =>
              exact ⟨fun _ _ => rfl, Or.inl rfl⟩
            | some v =>
              by_cases htr : pyTruthy v
              · refine ⟨?_, Or.inr ⟨status, result, textJ, v, midJ, statusJ, respJ,
                  rfl, h2xx.1, h2xx.2, hp, htr, ?_⟩⟩
                · intro s2 hs2
                  simp [genieUpdateState, htr, setConv, hs2]
                · simp [genieUpdateState, htr, setConv]
              · have hst2 : genieUpdateState st session_id (some v) = st := by
                  simp [genieUpdateState, htr]
                rw [hst2]
                exact ⟨fun _ _ => rfl, Or.inl rfl⟩
    · have hst : (query_genie_try env query session_id conversation_id st).2 = st := by
        simp [query_genie_try, henv, h429, h2xx]
      rw [hst]
      exact ⟨fun _ _ => rfl, Or.inl rfl⟩

/-- Claim C10 witness: at a concrete raising oracle, the entry of a session
id other than the invoked one is untouched. -/
theorem query_genie_conv_map_frame_witness :
    (query_genie envBoom "q" "sess" none emptyConv).2 "other" = emptyConv "other" :=
  (query_genie_conv_map_frame envBoom "q" "sess" none emptyConv).1 "other" (by decide)
